import Mathlib

/-!
Shallow embedding of the soulseek-research analysis and archival scripts
(`scripts/archive.py`, `scripts/generate_stats.py`,
`scripts/analyze_convergence.py`) together with theorems checking the
natural-language specification against the code.

Conventions of the embedding:
* a row of the `searches` table is a `RawRow`; timestamps are UTC epoch
  seconds modelled as `Int` (PostgreSQL timestamps are totally ordered and
  all code under study only compares, subtracts, buckets or formats them);
* SQL result sets are Lean lists; `SELECT DISTINCT` is `List.dedup`;
* the JSON / Python dict `client_totals` is an association list
  `List (String × Nat)` with first-occurrence lookup;
* database side effects of one script run are made explicit, either as a
  trace of operations (`ArchiveOp`) or as state passed in and returned.
-/

/-- One row of the `searches` table: columns `client_id`, `timestamp`,
`username`, `query` (the `id` column is never used by the code modelled
here).  `timestamp` is UTC epoch seconds. -/
structure RawRow where
  client_id : String
  timestamp : Int
  username : String
  query : String
  deriving DecidableEq

/-- Days-to-civil-date conversion (proleptic Gregorian calendar, UTC),
used to embed PostgreSQL `TO_CHAR(timestamp, 'YYYY-MM')`.  Input is days
since 1970-01-01; output is `(year, month)`. -/
def civilFromDays (z0 : Int) : Int × Int :=
  let z := z0 + 719468
  let era := Int.fdiv z 146097
  let doe := z - era * 146097
  let yoe := Int.fdiv (doe - Int.fdiv doe 1460 + Int.fdiv doe 36524 - Int.fdiv doe 146096) 365
  let y := yoe + era * 400
  let doy := doe - (365 * yoe + Int.fdiv yoe 4 - Int.fdiv yoe 100)
  let mp := Int.fdiv (5 * doy + 2) 153
  let m := mp + (if mp < 10 then 3 else -9)
  (if m ≤ 2 then y + 1 else y, m)

/-- `TO_CHAR(timestamp, 'YYYY-MM')`: the `"YYYY-MM"` month string of an
epoch-seconds timestamp. -/
def monthOf (t : Int) : String :=
  let ym := civilFromDays (Int.fdiv t 86400)
  toString ym.1 ++ "-" ++ (if ym.2 < 10 then "0" ++ toString ym.2 else toString ym.2)

/-- One row of the `archives` table. -/
structure ArchiveRecord where
  month : String
  file_path : String
  record_count : Nat
  file_size : Nat
  deleted : Bool
  deriving DecidableEq

/-- `MAX` over a list of timestamps (`none` on the empty list). -/
def listMax? (l : List Int) : Option Int :=
  l.foldl (fun acc t =>
    match acc with
    | none => some t
    | some v => some (max v t)) none

/-- `get_months_to_archive(conn, min_age_days)` from `scripts/archive.py`,
with `cutoff = now - min_age_days` made explicit.  Embeds its SQL query:
rows of `searches` are first filtered by `timestamp < cutoff` and by the
month not having a `deleted = TRUE` record in `archives` (the CTE
`archived_months`); the surviving rows are grouped by
`TO_CHAR(timestamp, 'YYYY-MM')`; `HAVING MAX(timestamp) < cutoff` is
evaluated over each group's (already filtered) rows; the distinct months
are returned in ascending order. -/
def get_months_to_archive (searches : List RawRow) (archives : List ArchiveRecord)
    (cutoff : Int) : List String :=
  let archivedMonths := (archives.filter (·.deleted)).map (·.month)
  let rows := searches.filter (fun r =>
    r.timestamp < cutoff && !(archivedMonths.contains (monthOf r.timestamp)))
  let months := (rows.map (fun r => monthOf r.timestamp)).dedup
  let kept := months.filter (fun m =>
    match listMax? (((rows.filter (fun r => monthOf r.timestamp == m)).map (·.timestamp))) with
    | some v => decide (v < cutoff)
    | none => false)
  List.insertionSort (fun a b : String => a ≤ b) kept

/-! ## `scripts/archive.py`: `archive_month` as a trace of database operations (C1) -/

/-- The externally visible database/file operations performed by
`archive.py` while archiving one month. -/
inductive ArchiveOp where
  /-- `export_month_to_parquet`: write the month's rows to the archive file. -/
  | exportFile (month : String)
  /-- `record_archive`: `INSERT INTO archives (..., deleted) VALUES (..., d)`;
  the source always inserts with `deleted = FALSE`. -/
  | recordArchive (month : String) (deleted : Bool)
  /-- `update_cumulative_stats`: merge the month's aggregates into
  `stats_cumulative`. -/
  | mergeCumulative (month : String)
  /-- `delete_archived_data`: `DELETE FROM searches` for the month. -/
  | deleteRows (month : String)
  /-- `mark_archive_deleted`: `UPDATE archives SET deleted = TRUE`. -/
  | markDeleted (month : String)
  deriving DecidableEq

/-- `archive_month(conn, month, archive_path, delete_after)` from
`scripts/archive.py`, as the ordered trace of operations it performs:
export, then record (with `deleted=false`); then, only if `delete_after`,
merge cumulative stats, delete the month's rows, and mark the archive
record deleted. -/
def archive_month (month : String) (delete_after : Bool) : List ArchiveOp :=
  [ArchiveOp.exportFile month, ArchiveOp.recordArchive month false] ++
    (if delete_after then
      [ArchiveOp.mergeCumulative month, ArchiveOp.deleteRows month,
       ArchiveOp.markDeleted month]
    else [])

/-! ## `scripts/archive.py`: the `main` month loop (C6) -/

/-- The `for month in months: archive_month(...)` loop of `main` in
`scripts/archive.py`.  The loop body is not wrapped in any `try/except`,
so an exception raised while archiving one month propagates and ends the
loop; `fails m = true` models "archiving month `m` raises".  The result is
the list of months whose archival completed. -/
def run_archival (fails : String → Bool) : List String → List String
  | [] => []
  | m :: rest => if fails m then [] else m :: run_archival fails rest

/-- Failure model in which no month raises. -/
def noFailure : String → Bool := fun _ => false

/-- Failure model in which exactly the month `"2024-01"` raises. -/
def failJan : String → Bool := fun m => m == "2024-01"

/-! ## `scripts/archive.py`: `update_cumulative_stats` (C3, C4) -/

/-- `LOWER(TRIM(query))` (Python: `query.lower().strip()`): the
normalized query key — surrounding whitespace removed, characters
lowercased.  Implemented over the string's character list so that it
evaluates by kernel reduction. -/
def normQuery (q : String) : String :=
  String.mk
    (((q.data.dropWhile Char.isWhitespace).reverse.dropWhile
        Char.isWhitespace).reverse.map Char.toLower)

/-- `MIN` over a list of timestamps (`none` on the empty list). -/
def listMin? (l : List Int) : Option Int :=
  l.foldl (fun acc t =>
    match acc with
    | none => some t
    | some v => some (min v t)) none

/-- `COUNT(DISTINCT ...)`. -/
def countDistinct (l : List String) : Nat := l.dedup.length

/-- The rows of `searches` belonging to one `'YYYY-MM'` month
(`WHERE TO_CHAR(timestamp, 'YYYY-MM') = month`). -/
def monthRows (searches : List RawRow) (month : String) : List RawRow :=
  searches.filter (fun r => monthOf r.timestamp == month)

/-- `SELECT client_id, COUNT(*) ... GROUP BY client_id`: per-client raw
row counts of a month. -/
def clientCounts (rows : List RawRow) : List (String × Nat) :=
  ((rows.map (·.client_id)).dedup).map
    (fun c => (c, (rows.filter (fun r => r.client_id == c)).length))

/-- The row produced by the month-stats `SELECT` at the top of
`update_cumulative_stats` (lines 83-109 of `scripts/archive.py`),
together with the month's per-client counts.  The timestamp aggregates
are `NULL` (`none`) exactly when the month has no rows. -/
structure MonthAgg where
  searches : Nat
  users : Nat
  queries : Nat
  search_pairs : Nat
  first_search : Option Int
  last_search : Option Int
  client_totals : List (String × Nat)
  deriving DecidableEq

/-- Evaluate the month-stats queries of `update_cumulative_stats` over the
live `searches` table. -/
def computeMonthAgg (searches : List RawRow) (month : String) : MonthAgg :=
  let rows := monthRows searches month
  { searches := rows.length
    users := countDistinct (rows.map (·.username))
    queries := countDistinct (rows.map (fun r => normQuery r.query))
    search_pairs := countDistinct (rows.map (fun r => r.username ++ "|" ++ normQuery r.query))
    first_search := listMin? (rows.map (·.timestamp))
    last_search := listMax? (rows.map (·.timestamp))
    client_totals := clientCounts rows }

/-- The singleton `stats_cumulative` row (`id = 1`). -/
structure CumStats where
  total_searches : Nat
  total_users : Nat
  total_queries : Nat
  total_search_pairs : Nat
  first_search : Option Int
  last_search : Option Int
  client_totals : List (String × Nat)
  last_archive_month : Option String
  deriving DecidableEq

/-- The row inserted when `stats_cumulative` is empty:
`(1, 0, 0, 0, 0, NULL, NULL, '\x7b\x7d', NULL)`. -/
def zeroCumStats : CumStats :=
  ⟨0, 0, 0, 0, none, none, [], none⟩

/-- Python dict lookup `d.get(k, 0)` on the JSON `client_totals` object,
modelled as first-occurrence association-list lookup. -/
def getCount : List (String × Nat) → String → Nat
  | [], _ => 0
  | p :: rest, k => if p.1 = k then p.2 else getCount rest k

/-- Python dict store `d[k] = v`: replace the first entry with key `k`,
or append the binding when the key is absent. -/
def setCount : List (String × Nat) → String → Nat → List (String × Nat)
  | [], k, v => [(k, v)]
  | p :: rest, k, v => if p.1 = k then (k, v) :: rest else p :: setCount rest k v

/-- The `client_totals` merge loop of `update_cumulative_stats`:
`new[cid] = new.get(cid, 0) + count` for every month entry, starting from
a copy of the current totals. -/
def mergeClientTotals (cur month : List (String × Nat)) : List (String × Nat) :=
  month.foldl (fun acc p => setCount acc p.1 (getCount acc p.1 + p.2)) cur

/-- Lines 137-164 of `scripts/archive.py`: combine the current cumulative
row with a month aggregate.  On the only code path reaching this merge the
month has at least one row, so `agg.first_search`/`agg.last_search` are
`some`; the `some o, none` arms (which in Python would raise a
`TypeError` inside `min`/`max`) keep the current value to stay total. -/
def mergeCumulativeStats (cur : CumStats) (agg : MonthAgg) (month : String) : CumStats :=
  { total_searches := cur.total_searches + agg.searches
    total_users := cur.total_users + agg.users
    total_queries := cur.total_queries + agg.queries
    total_search_pairs := cur.total_search_pairs + agg.search_pairs
    first_search :=
      match cur.first_search, agg.first_search with
      | none, v => v
      | some o, none => some o
      | some o, some v => some (min o v)
    last_search :=
      match cur.last_search, agg.last_search with
      | none, v => v
      | some o, none => some o
      | some o, some v => some (max o v)
    client_totals := mergeClientTotals cur.client_totals agg.client_totals
    last_archive_month := some month }

/-- `update_cumulative_stats(conn, month)` from `scripts/archive.py` as a
pure state update: `cur` is the current `stats_cumulative` row (`none`
when the table is empty).  The function computes the month's aggregate
from `searches`; if the month has no rows it returns early leaving the
table untouched; otherwise it initializes the row if absent and writes
the merged values. -/
def update_cumulative_stats (cur : Option CumStats) (searches : List RawRow)
    (month : String) : Option CumStats :=
  let agg := computeMonthAgg searches month
  if agg.searches == 0 then cur
  else some (mergeCumulativeStats (cur.getD zeroCumStats) agg month)

/-- `total_raw_count` of the cumulative state (`0` while the singleton row
does not exist yet). -/
def totalSearchesOf (cur : Option CumStats) : Nat :=
  (cur.getD zeroCumStats).total_searches

/-- A sequence of archival merges applied to the cumulative state. -/
def foldMerges (cur : Option CumStats) (periods : List (List RawRow × String)) :
    Option CumStats :=
  periods.foldl (fun c p => update_cumulative_stats c p.1 p.2) cur

/-! ## `scripts/generate_stats.py`: `deduplicate_dataframe` (C5, C10) -/

/-- pandas `df['timestamp'].dt.floor('5min')`: the timestamp floored to
its 5-minute boundary. -/
def floor5min (t : Int) : Int := 300 * Int.fdiv t 300

/-- The key `deduplicate_dataframe` drops duplicates on:
`subset=['username', 'query', 'time_bucket']` — the raw, non-normalized
`query` column. -/
def dedupKey (r : RawRow) : String × String × Int :=
  (r.username, r.query, floor5min r.timestamp)

/-- `df.sort_values('timestamp')`. -/
def sortByTimestamp (df : List RawRow) : List RawRow :=
  List.insertionSort (fun a b => a.timestamp ≤ b.timestamp) df

/-- `drop_duplicates(subset=..., keep='first')`: keep each row whose key
has not been seen earlier in the list. -/
def keepFirstByKey : List RawRow → List (String × String × Int) → List RawRow
  | [], _ => []
  | r :: rest, seen =>
    if dedupKey r ∈ seen then keepFirstByKey rest seen
    else r :: keepFirstByKey rest (dedupKey r :: seen)

/-- `deduplicate_dataframe(df)` from `scripts/generate_stats.py`: an empty
frame is returned unchanged; otherwise rows get a 5-minute
`time_bucket` column, are sorted by `timestamp`, and only the first
occurrence of each `(username, query, time_bucket)` is kept. -/
def deduplicate_dataframe (df : List RawRow) : List RawRow :=
  if df.isEmpty then df
  else keepFirstByKey (sortByTimestamp df) []

/-! ## `scripts/analyze_convergence.py` (C5, C8, C9) -/

/-- `FLOOR(EXTRACT(EPOCH FROM timestamp) / window_seconds)`. -/
def timeBucketOf (ws t : Int) : Int := Int.fdiv t ws

/-- The convergence analyzer's search-event key:
`(username, LOWER(TRIM(query)), time_bucket)`. -/
structure EventKey where
  username : String
  norm_query : String
  time_bucket : Int
  deriving DecidableEq

/-- Event key of one raw observation. -/
def eventKeyOf (ws : Int) (r : RawRow) : EventKey :=
  ⟨r.username, normQuery r.query, timeBucketOf ws r.timestamp⟩

/-- `WHERE timestamp >= start_time AND timestamp <= end_time`. -/
def rowsInRange (rows : List RawRow) (startT endT : Int) : List RawRow :=
  rows.filter (fun r => startT ≤ r.timestamp && r.timestamp ≤ endT)

/-- The distinct clients observing an event (`COUNT(DISTINCT client_id)`
counts its length). -/
def eventClients (ws : Int) (rows : List RawRow) (k : EventKey) : List String :=
  ((rows.filter (fun r => eventKeyOf ws r == k)).map (·.client_id)).dedup

/-- Per-client `first_seen = MIN(timestamp)` of an event (the
`event_times` CTE). -/
def clientFirstSeen? (ws : Int) (rows : List RawRow) (k : EventKey) (c : String) :
    Option Int :=
  listMin? ((rows.filter (fun r => eventKeyOf ws r == k && r.client_id == c)).map
    (·.timestamp))

/-- `spread_seconds = EXTRACT(EPOCH FROM (MAX(first_seen) - MIN(first_seen)))`
of the `multi_client_events` CTE: the spread of the event's per-client
first receptions. -/
def spreadSeconds (ws : Int) (rows : List RawRow) (k : EventKey) : Int :=
  let firsts := (eventClients ws rows k).filterMap (clientFirstSeen? ws rows k)
  (listMax? firsts).getD 0 - (listMin? firsts).getD 0

/-- For comparison with the claim only — the spec's formula: a
CanonicalEvent's `last_seen - first_seen`, i.e. `MAX(timestamp)` minus
`MIN(timestamp)` over all of the event's raw observations. -/
def specEventSpread (ws : Int) (rows : List RawRow) (k : EventKey) : Int :=
  let ts := (rows.filter (fun r => eventKeyOf ws r == k)).map (·.timestamp)
  (listMax? ts).getD 0 - (listMin? ts).getD 0

/-- The `CASE WHEN spread_seconds < 60 ...` latency-class labels of the
`bucketed` CTE. -/
def spreadClass (s : Int) : String :=
  if s < 60 then "< 1 min"
  else if s < 300 then "1-5 min"
  else if s < 900 then "5-15 min"
  else if s < 3600 then "15-60 min"
  else "> 1 hour"

/-- The distinct event keys of a row set. -/
def eventKeys (ws : Int) (rows : List RawRow) : List EventKey :=
  (rows.map (eventKeyOf ws)).dedup

/-- Events kept by `HAVING COUNT(DISTINCT client_id) >= 2`. -/
def multiClientKeys (ws : Int) (rows : List RawRow) : List EventKey :=
  (eventKeys ws rows).filter (fun k => 2 ≤ (eventClients ws rows k).length)

/-- The histogram input: each multi-client event's latency class. -/
def spreadHistogramEntries (ws : Int) (rows : List RawRow) : List String :=
  (multiClientKeys ws rows).map (fun k => spreadClass (spreadSeconds ws rows k))

/-- The `(client_count, event_count)` distribution rows
(`event_client_counts` grouped by `client_count`). -/
def distributionRows (ws : Int) (rows : List RawRow) : List (Nat × Nat) :=
  (((eventKeys ws rows).map (fun k => (eventClients ws rows k).length)).dedup).map
    (fun n => (n,
      ((eventKeys ws rows).filter
        (fun k => (eventClients ws rows k).length == n)).length))

/-- `HAVING COUNT(DISTINCT client_id) = n`: events seen by exactly `n`
clients. -/
def fullConvergenceCount (ws : Int) (rows : List RawRow) (n : Nat) : Nat :=
  ((eventKeys ws rows).filter (fun k => (eventClients ws rows k).length == n)).length

/-- `events_a` of the pairwise-overlap query: one client's distinct event
keys. -/
def clientEventKeys (ws : Int) (rows : List RawRow) (c : String) : List EventKey :=
  ((rows.filter (fun r => r.client_id == c)).map (eventKeyOf ws)).dedup

/-- `a_in_b`: how many of client `a`'s events client `b` also has. -/
def overlapCount (ws : Int) (rows : List RawRow) (a b : String) : Nat :=
  ((clientEventKeys ws rows a).filter
    (fun k => decide (k ∈ clientEventKeys ws rows b))).length

/-- `combinations(sorted(clients), 2)`: all ordered pairs of the sorted
client roster. -/
def orderedPairs : List String → List (String × String)
  | [] => []
  | c :: rest => rest.map (fun d => (c, d)) ++ orderedPairs rest

/-- The analyzer's output: either the insufficient-data message printed
when fewer than two clients are active (carrying nothing else), or the
computed report. -/
inductive ConvReport where
  | insufficient (activeClients : List String)
  | analysis (activeClients : List String)
      (distribution : List (Nat × Nat))
      (fullConvergence : Nat)
      (histogram : List String)
      (overlaps : List (String × String × Nat × Nat))
  deriving DecidableEq

/-- `analyze_convergence(conn, ...)` from `scripts/analyze_convergence.py`
as a pure function of the rows in the requested range: it collects the
distinct active clients and, when fewer than two are present, prints
"Need at least 2 clients to analyze convergence." and returns without
running any of the analysis queries; otherwise it reports the event
distribution, the full-convergence count, the spread histogram and the
pairwise overlaps. -/
def analyze_convergence (rows : List RawRow) (startT endT ws : Int) : ConvReport :=
  let inRange := rowsInRange rows startT endT
  let clients := (inRange.map (·.client_id)).dedup
  if clients.length < 2 then ConvReport.insufficient clients
  else
    ConvReport.analysis clients (distributionRows ws inRange)
      (fullConvergenceCount ws inRange clients.length)
      (spreadHistogramEntries ws inRange)
      ((orderedPairs (List.insertionSort (fun a b : String => a ≤ b) clients)).map
        (fun p => (p.1, p.2, overlapCount ws inRange p.1 p.2,
          overlapCount ws inRange p.2 p.1)))

/-! ## Archive file format (C7) -/

/-- The four magic bytes `"PAR1"` opening every Parquet file written by
`df.to_parquet(..., engine='pyarrow')`. -/
def parquetMagic : List Nat := [80, 65, 82, 49]

/-- The two magic bytes `0x1f 0x8b` opening every gzip stream;
`gzip.open` raises `BadGzipFile` when they are absent. -/
def gzipMagic : List Nat := [31, 139]

/-- An archive file on disk, modelled as its container magic bytes plus
the rows its payload encodes. -/
structure ArchiveFileBytes where
  magic : List Nat
  payloadRows : List RawRow
  deriving DecidableEq

/-- `export_month_to_parquet(conn, month, archive_path)` from
`scripts/archive.py`: loads the month's rows ordered by `timestamp` and
writes them as a Parquet file (snappy compression); returns the file and
the record count. -/
def export_month_to_parquet (searches : List RawRow) (month : String) :
    ArchiveFileBytes × Nat :=
  let rows := sortByTimestamp (monthRows searches month)
  (⟨parquetMagic, rows⟩, rows.length)

/-- `read_archived_searches(archive_path)` from
`scripts/generate_stats.py`: opens the file with `gzip.open` and parses
it as CSV, yielding one dict per row.  The gzip layer accepts only files
starting with the gzip magic and raises `BadGzipFile` for anything else
(in particular for a Parquet file), modelled with `Except`. -/
def read_archived_searches (f : ArchiveFileBytes) : Except String (List RawRow) :=
  if f.magic.take 2 = gzipMagic then Except.ok f.payloadRows
  else Except.error "BadGzipFile"

/-- Two raw observations differing only in the case and surrounding
whitespace of their query, same subject, same 5-minute bucket. -/
def rockRow1 : RawRow := ⟨"berlin", 0, "u1", "  Rock  "⟩

/-- See `rockRow1`. -/
def rockRow2 : RawRow := ⟨"tokyo", 10, "u1", "rock"⟩

/-- Rows of one convergence event: client `"A"` observes it at `t = 0`
and `t = 200`, client `"B"` at `t = 50` (all in bucket 0 of the default
300-second window). -/
def spreadRows : List RawRow :=
  [⟨"A", 0, "u1", "jazz"⟩, ⟨"A", 200, "u1", "jazz"⟩, ⟨"B", 50, "u1", "jazz"⟩]

/-- A range with a single active client, for the C9 witness. -/
def oneClientRows : List RawRow := [⟨"berlin", 100, "u1", "jazz"⟩]

/-- Two rows with distinct dedup keys (different 5-minute buckets), for
the C10 witness. -/
def dedupDfEx : List RawRow :=
  [⟨"berlin", 0, "u1", "delta"⟩, ⟨"tokyo", 400, "u1", "delta"⟩]

/-- A concrete current cumulative row, used by the C4 witness. -/
def cumStatsEx : CumStats :=
  ⟨5, 1, 1, 1, some 10, some 20, [("berlin", 5)], some "2024-01"⟩

/-- A concrete month aggregate, used by the C4 witness. -/
def monthAggEx : MonthAgg :=
  ⟨3, 1, 2, 2, some 5, some 30, [("berlin", 1), ("tokyo", 2)]⟩

/-- C1: in `archive_month`, rows of a period are deleted only after the
period's archive record has been inserted with `deleted = false` and
after the period's aggregates were merged into the cumulative stats, the
`deleted = true` flip comes only after the deletion, and with
`delete_after` set the trace is exactly export, record, merge, delete,
flip. -/
theorem c1_archive_month_order (month : String) (b : Bool) (i : Nat)
    (h : (archive_month month b).get? i = some (ArchiveOp.deleteRows month)) :
    (∃ j, j < i ∧ (archive_month month b).get? j
        = some (ArchiveOp.recordArchive month false)) ∧
    (∃ k, k < i ∧ (archive_month month b).get? k
        = some (ArchiveOp.mergeCumulative month)) ∧
    (∀ l, (archive_month month b).get? l = some (ArchiveOp.markDeleted month) → i < l) ∧
    archive_month month true =
      [ArchiveOp.exportFile month, ArchiveOp.recordArchive month false,
       ArchiveOp.mergeCumulative month, ArchiveOp.deleteRows month,
       ArchiveOp.markDeleted month] := by
  cases b with
  | false =>
    exfalso
    rcases i with _ | _ | i <;> simp [archive_month] at h
  | true =>
    have hi : i = 3 := by
      rcases i with _ | _ | _ | _ | _ | i <;> simp_all [archive_month]
    subst hi
    refine ⟨⟨1, by omega, rfl⟩, ⟨2, by omega, rfl⟩, ?_, rfl⟩
    intro l hl
    rcases l with _ | _ | _ | _ | _ | l <;> simp_all [archive_month]

/-- Witness for C1 at `month = "2024-03"`, `delete_after = true`, `i = 3`. -/
theorem c1_archive_month_order_witness :
    (∃ j, j < 3 ∧ (archive_month "2024-03" true).get? j
        = some (ArchiveOp.recordArchive "2024-03" false)) ∧
    (∃ k, k < 3 ∧ (archive_month "2024-03" true).get? k
        = some (ArchiveOp.mergeCumulative "2024-03")) ∧
    (∀ l, (archive_month "2024-03" true).get? l
        = some (ArchiveOp.markDeleted "2024-03") → 3 < l) ∧
    archive_month "2024-03" true =
      [ArchiveOp.exportFile "2024-03", ArchiveOp.recordArchive "2024-03" false,
       ArchiveOp.mergeCumulative "2024-03", ArchiveOp.deleteRows "2024-03",
       ArchiveOp.markDeleted "2024-03"] :=
  c1_archive_month_order "2024-03" true 3 rfl

/-- C6 counterexample: with two selected months where archiving the first
one raises, the second month is not processed, refuting the claim that a
failure in one period never prevents the remaining periods from being
processed. -/
theorem c6_failure_aborts_rest :
    run_archival failJan ["2024-01", "2024-02"] = [] ∧
    "2024-02" ∉ run_archival failJan ["2024-01", "2024-02"] := by
  constructor
  · rfl
  · decide

/-- C6 amended: `main`'s loop processes exactly the selected months that
strictly precede the first failing month — a failure aborts all later
periods of the run (earlier ones are unaffected), and only a run with no
failure processes every selected month. -/
theorem c6_amended_first_failure_stops_run (fails : String → Bool)
    (months : List String) :
    run_archival fails months = months.takeWhile (fun m => !(fails m)) ∧
    ((∀ m ∈ months, fails m = false) → run_archival fails months = months) := by
  have h1 : run_archival fails months = months.takeWhile (fun m => !(fails m)) := by
    induction months with
    | nil => rfl
    | cons m rest ih =>
      by_cases hm : fails m
      · simp [run_archival, List.takeWhile, hm]
      · simp only [Bool.not_eq_true] at hm
        simp [run_archival, List.takeWhile, hm, ih]
  refine ⟨h1, fun hall => ?_⟩
  rw [h1]
  exact List.takeWhile_eq_self_iff.mpr fun x hx => by simp [hall x hx]

/-- C2, at the failing input: month `"2024-02"` holds an observation at
epoch `1706745600` (2024-02-01, before the cutoff `1707000000`) and one at
`1708387200` (2024-02-20, after the cutoff).  Because the query filters
rows by `timestamp < cutoff` before evaluating
`HAVING MAX(timestamp) < cutoff`, the month is selected for archival even
though not all of its observations are older than the cutoff — the code
contradicts its own docstring ("All its data is older than
min_age_days").  The `deleted = true` exclusion half of the claim does
hold: with such a record present the same input selects nothing. -/
theorem c2_month_with_fresh_rows_is_selected :
    monthOf (1706745600 : Int) = "2024-02" ∧
    monthOf (1708387200 : Int) = "2024-02" ∧
    ¬ ((1708387200 : Int) < 1707000000) ∧
    get_months_to_archive
      [⟨"client-a", 1706745600, "u1", "jazz"⟩, ⟨"client-a", 1708387200, "u2", "rock"⟩]
      [] 1707000000 = ["2024-02"] ∧
    get_months_to_archive
      [⟨"client-a", 1706745600, "u1", "jazz"⟩, ⟨"client-a", 1708387200, "u2", "rock"⟩]
      [⟨"2024-02", "searches_2024-02.parquet", 2, 100, true⟩] 1707000000 = [] := by
  refine ⟨by decide, by decide, by decide, by decide, by decide⟩

theorem getCount_setCount (l : List (String × Nat)) (k : String) (v : Nat) (k' : String) :
    getCount (setCount l k v) k' = if k' = k then v else getCount l k' := by
  induction l with
  | nil =>
    simp only [setCount, getCount]
    split_ifs with h1 h2 <;> simp_all
  | cons p rest ih =>
    by_cases hp : p.1 = k
    · simp only [setCount, if_pos hp, getCount]
      by_cases h : k' = k
      · rw [if_pos h.symm, if_pos h]
      · rw [if_neg (fun hh : k = k' => h hh.symm), if_neg h,
          if_neg (fun hh : p.1 = k' => h (hh.symm.trans hp))]
    · simp only [setCount, if_neg hp, getCount, ih]
      by_cases h1 : p.1 = k'
      · have h2 : ¬ k' = k := fun hh => hp (h1.trans hh)
        rw [if_pos h1, if_neg h2, if_pos h1]
      · by_cases h2 : k' = k
        · rw [if_neg h1, if_pos h2, if_pos h2]
        · rw [if_neg h1, if_neg h2, if_neg h2, if_neg h1]

theorem getCount_eq_zero_of_not_mem (l : List (String × Nat)) (k : String)
    (h : k ∉ l.map Prod.fst) : getCount l k = 0 := by
  induction l with
  | nil => rfl
  | cons p rest ih =>
    simp only [List.map_cons, List.mem_cons] at h
    push_neg at h
    show (if p.1 = k then p.2 else getCount rest k) = 0
    rw [if_neg (fun hh => h.1 hh.symm)]
    exact ih h.2

theorem getCount_mergeClientTotals (month : List (String × Nat)) :
    ∀ cur : List (String × Nat), (month.map Prod.fst).Nodup →
      ∀ k, getCount (mergeClientTotals cur month) k
        = getCount cur k + getCount month k := by
  induction month with
  | nil => intro cur _ k; simp [mergeClientTotals, getCount]
  | cons p rest ih =>
    intro cur hnd k
    simp only [List.map_cons, List.nodup_cons] at hnd
    have hstep : mergeClientTotals cur (p :: rest)
        = mergeClientTotals (setCount cur p.1 (getCount cur p.1 + p.2)) rest := rfl
    rw [hstep, ih _ hnd.2 k, getCount_setCount]
    by_cases hk : k = p.1
    · rw [if_pos hk, hk, getCount_eq_zero_of_not_mem rest p.1 hnd.1]
      simp [getCount]
    · rw [if_neg hk]
      have hco : getCount (p :: rest) k = getCount rest k := by
        simp only [getCount]
        rw [if_neg (fun hh => hk hh.symm)]
      rw [hco]

/-- C3: `update_cumulative_stats` adds exactly the month's raw row count
to `total_searches`, a month with zero rows leaves the whole cumulative
record unchanged, and over any sequence of merges the counter never
decreases. -/
theorem c3_total_searches_monotone :
    (∀ cur searches month,
      totalSearchesOf (update_cumulative_stats cur searches month)
        = totalSearchesOf cur + (monthRows searches month).length) ∧
    (∀ cur searches month, monthRows searches month = [] →
      update_cumulative_stats cur searches month = cur) ∧
    (∀ cur periods, totalSearchesOf cur ≤ totalSearchesOf (foldMerges cur periods)) := by
  have h1 : ∀ cur searches month,
      totalSearchesOf (update_cumulative_stats cur searches month)
        = totalSearchesOf cur + (monthRows searches month).length := by
    intro cur s m
    by_cases h : (monthRows s m).length = 0
    · simp [update_cumulative_stats, computeMonthAgg, h, totalSearchesOf]
    · simp [update_cumulative_stats, computeMonthAgg, h, totalSearchesOf,
        mergeCumulativeStats]
  refine ⟨h1, ?_, ?_⟩
  · intro cur s m h
    simp [update_cumulative_stats, computeMonthAgg, h]
  · intro cur periods
    induction periods generalizing cur with
    | nil => exact Nat.le_refl _
    | cons p rest ih =>
      calc totalSearchesOf cur
          ≤ totalSearchesOf (update_cumulative_stats cur p.1 p.2) := by
            rw [h1]; exact Nat.le_add_right _ _
        _ ≤ totalSearchesOf (foldMerges (update_cumulative_stats cur p.1 p.2) rest) :=
            ih _
        _ = totalSearchesOf (foldMerges cur (p :: rest)) := rfl

/-- Witness for C3 on the empty table and month `"2024-01"`. -/
theorem c3_total_searches_monotone_witness :
    update_cumulative_stats (some zeroCumStats) [] "2024-01" = some zeroCumStats :=
  c3_total_searches_monotone.2.1 (some zeroCumStats) [] "2024-01" rfl

/-- C4: the cumulative merge adds each additive field, merges the
timestamp fields by `min`/`max` (taking the period value when the current
value is `NULL`), and merges `client_totals` by key-wise addition —
stated via lookups, so keys present on only one side keep that side's
count. -/
theorem c4_merge_field_formulas (cur : CumStats) (agg : MonthAgg) (month : String)
    (hnd : (agg.client_totals.map Prod.fst).Nodup) :
    (mergeCumulativeStats cur agg month).total_searches
      = cur.total_searches + agg.searches ∧
    (mergeCumulativeStats cur agg month).total_users
      = cur.total_users + agg.users ∧
    (mergeCumulativeStats cur agg month).total_queries
      = cur.total_queries + agg.queries ∧
    (mergeCumulativeStats cur agg month).total_search_pairs
      = cur.total_search_pairs + agg.search_pairs ∧
    (cur.first_search = none →
      (mergeCumulativeStats cur agg month).first_search = agg.first_search) ∧
    (∀ o v, cur.first_search = some o → agg.first_search = some v →
      (mergeCumulativeStats cur agg month).first_search = some (min o v)) ∧
    (cur.last_search = none →
      (mergeCumulativeStats cur agg month).last_search = agg.last_search) ∧
    (∀ o v, cur.last_search = some o → agg.last_search = some v →
      (mergeCumulativeStats cur agg month).last_search = some (max o v)) ∧
    (∀ k, getCount (mergeCumulativeStats cur agg month).client_totals k
      = getCount cur.client_totals k + getCount agg.client_totals k) := by
  refine ⟨rfl, rfl, rfl, rfl, ?_, ?_, ?_, ?_, ?_⟩
  · intro h; simp [mergeCumulativeStats, h]
  · intro o v ho hv; simp [mergeCumulativeStats, ho, hv]
  · intro h; simp [mergeCumulativeStats, h]
  · intro o v ho hv; simp [mergeCumulativeStats, ho, hv]
  · intro k
    exact getCount_mergeClientTotals agg.client_totals cur.client_totals hnd k

/-- Witness for C4 at concrete current stats and month aggregate. -/
theorem c4_merge_field_formulas_witness :
    (monthAggEx.client_totals.map Prod.fst).Nodup ∧
    ((mergeCumulativeStats cumStatsEx monthAggEx "2024-02").total_searches
      = cumStatsEx.total_searches + monthAggEx.searches ∧
    (mergeCumulativeStats cumStatsEx monthAggEx "2024-02").total_users
      = cumStatsEx.total_users + monthAggEx.users ∧
    (mergeCumulativeStats cumStatsEx monthAggEx "2024-02").total_queries
      = cumStatsEx.total_queries + monthAggEx.queries ∧
    (mergeCumulativeStats cumStatsEx monthAggEx "2024-02").total_search_pairs
      = cumStatsEx.total_search_pairs + monthAggEx.search_pairs ∧
    (cumStatsEx.first_search = none →
      (mergeCumulativeStats cumStatsEx monthAggEx "2024-02").first_search
        = monthAggEx.first_search) ∧
    (∀ o v, cumStatsEx.first_search = some o → monthAggEx.first_search = some v →
      (mergeCumulativeStats cumStatsEx monthAggEx "2024-02").first_search
        = some (min o v)) ∧
    (cumStatsEx.last_search = none →
      (mergeCumulativeStats cumStatsEx monthAggEx "2024-02").last_search
        = monthAggEx.last_search) ∧
    (∀ o v, cumStatsEx.last_search = some o → monthAggEx.last_search = some v →
      (mergeCumulativeStats cumStatsEx monthAggEx "2024-02").last_search
        = some (max o v)) ∧
    (∀ k, getCount (mergeCumulativeStats cumStatsEx monthAggEx "2024-02").client_totals k
      = getCount cumStatsEx.client_totals k + getCount monthAggEx.client_totals k)) :=
  ⟨by decide, c4_merge_field_formulas cumStatsEx monthAggEx "2024-02" (by decide)⟩

/-- Witness for C6's amended theorem on a failure-free two-month run. -/
theorem c6_amended_witness :
    run_archival noFailure ["2024-01", "2024-02"]
      = (["2024-01", "2024-02"] : List String).takeWhile (fun m => !(noFailure m)) ∧
    run_archival noFailure ["2024-01", "2024-02"] = ["2024-01", "2024-02"] :=
  ⟨(c6_amended_first_failure_stops_run noFailure ["2024-01", "2024-02"]).1,
   (c6_amended_first_failure_stops_run noFailure ["2024-01", "2024-02"]).2
     (by intro m _; rfl)⟩

theorem keepFirstByKey_of_distinct :
    ∀ (l : List RawRow) (seen : List (String × String × Int)),
      l.Pairwise (fun a b => dedupKey a ≠ dedupKey b) →
      (∀ r ∈ l, dedupKey r ∉ seen) →
      keepFirstByKey l seen = l := by
  intro l
  induction l with
  | nil => intro seen _ _; rfl
  | cons r rest ih =>
    intro seen hpw hseen
    rw [List.pairwise_cons] at hpw
    have hnotin : dedupKey r ∉ seen := hseen r (by simp)
    simp only [keepFirstByKey, if_neg hnotin]
    congr 1
    apply ih _ hpw.2
    intro x hx hmem
    rcases List.mem_cons.mp hmem with heq | hmem2
    · exact hpw.1 x hx heq.symm
    · exact hseen x (List.mem_cons_of_mem r hx) hmem2

/-- C5 counterexample: `"  Rock  "` and `"rock"` from the same subject in
the same 5-minute bucket do NOT collapse under `deduplicate_dataframe` —
it groups on the raw `query` column, so both rows survive. -/
theorem c5_dedup_keeps_case_variants :
    rockRow1.username = rockRow2.username ∧
    normQuery rockRow1.query = normQuery rockRow2.query ∧
    floor5min rockRow1.timestamp = floor5min rockRow2.timestamp ∧
    (deduplicate_dataframe [rockRow1, rockRow2]).length = 2 := by
  refine ⟨rfl, by decide, by decide, by decide⟩

/-- C5 amended: only the convergence analyzer groups observations by the
normalized (lowercased, trimmed) query — observations of one subject in
one bucket whose queries agree after normalization share one event key —
while `deduplicate_dataframe` groups by the raw query text and keeps the
two case/whitespace variants as distinct rows. -/
theorem c5_amended_normalization_only_in_analyzer :
    (∀ (ws : Int) (r1 r2 : RawRow), r1.username = r2.username →
      normQuery r1.query = normQuery r2.query →
      timeBucketOf ws r1.timestamp = timeBucketOf ws r2.timestamp →
      eventKeyOf ws r1 = eventKeyOf ws r2) ∧
    eventKeys 300 [rockRow1, rockRow2] = [eventKeyOf 300 rockRow1] ∧
    deduplicate_dataframe [rockRow1, rockRow2] = [rockRow1, rockRow2] := by
  refine ⟨?_, by decide, by decide⟩
  intro ws r1 r2 h1 h2 h3
  simp [eventKeyOf, h1, h2, h3]

/-- Witness for C5's amended theorem at the `"  Rock  "`/`"rock"` rows. -/
theorem c5_amended_normalization_witness :
    rockRow1.username = rockRow2.username ∧
    normQuery rockRow1.query = normQuery rockRow2.query ∧
    timeBucketOf 300 rockRow1.timestamp = timeBucketOf 300 rockRow2.timestamp ∧
    eventKeyOf 300 rockRow1 = eventKeyOf 300 rockRow2 :=
  ⟨rfl, by decide, by decide,
    c5_amended_normalization_only_in_analyzer.1 300 rockRow1 rockRow2 rfl
      (by decide) (by decide)⟩

/-- C7: the archive reader cannot recover what the exporter wrote — the
exporter produces a Parquet container while `read_archived_searches`
parses gzipped CSV, so reading any exported file raises `BadGzipFile`
instead of yielding the exported records. -/
theorem c7_reader_rejects_exported_file :
    (∀ (searches : List RawRow) (month : String),
      read_archived_searches (export_month_to_parquet searches month).1
        = Except.error "BadGzipFile") ∧
    read_archived_searches (export_month_to_parquet
        [⟨"berlin", 1706745600, "u1", "jazz"⟩] "2024-02").1
      ≠ Except.ok [⟨"berlin", 1706745600, "u1", "jazz"⟩] := by
  refine ⟨fun s m => rfl, fun hcontra => ?_⟩
  rw [show read_archived_searches (export_month_to_parquet
        [⟨"berlin", 1706745600, "u1", "jazz"⟩] "2024-02").1
      = Except.error "BadGzipFile" from rfl] at hcontra
  exact Except.noConfusion hcontra

/-- C8 counterexample: in `spreadRows` the event is seen by 2 clients;
the code buckets `spread_seconds = 50` (max minus min of the per-client
first receptions) into `"< 1 min"`, whereas the claim's
`last_seen - first_seen` value is `200`, which falls in `"1-5 min"`. -/
theorem c8_histogram_not_last_minus_first :
    2 ≤ (eventClients 300 spreadRows ⟨"u1", "jazz", 0⟩).length ∧
    spreadSeconds 300 spreadRows ⟨"u1", "jazz", 0⟩ = 50 ∧
    specEventSpread 300 spreadRows ⟨"u1", "jazz", 0⟩ = 200 ∧
    spreadHistogramEntries 300 spreadRows = ["< 1 min"] ∧
    spreadClass (specEventSpread 300 spreadRows ⟨"u1", "jazz", 0⟩) = "1-5 min" := by
  refine ⟨by decide, by decide, by decide, by decide, by decide⟩

/-- C8 amended: the histogram buckets each multi-client event's
`spread_seconds` — the difference between the latest and earliest
per-collection-point first receptions, not the event's overall
`last_seen - first_seen` — into exactly one of the five latency classes
with boundaries 60, 300, 900 and 3600 seconds, and only events seen by
at least 2 distinct clients enter the histogram. -/
theorem c8_amended_spread_bucket_boundaries :
    (∀ s : Int, s < 60 → spreadClass s = "< 1 min") ∧
    (∀ s : Int, 60 ≤ s → s < 300 → spreadClass s = "1-5 min") ∧
    (∀ s : Int, 300 ≤ s → s < 900 → spreadClass s = "5-15 min") ∧
    (∀ s : Int, 900 ≤ s → s < 3600 → spreadClass s = "15-60 min") ∧
    (∀ s : Int, 3600 ≤ s → spreadClass s = "> 1 hour") ∧
    (∀ (ws : Int) (rows : List RawRow) (k : EventKey),
      k ∈ multiClientKeys ws rows ↔
        k ∈ eventKeys ws rows ∧ 2 ≤ (eventClients ws rows k).length) ∧
    (∀ (ws : Int) (rows : List RawRow),
      spreadHistogramEntries ws rows
        = (multiClientKeys ws rows).map (fun k => spreadClass (spreadSeconds ws rows k))) := by
  refine ⟨?_, ?_, ?_, ?_, ?_, ?_, fun ws rows => rfl⟩
  · intro s h
    simp [spreadClass, h]
  · intro s h1 h2
    simp [spreadClass, h2, show ¬ s < 60 by omega]
  · intro s h1 h2
    simp [spreadClass, h2, show ¬ s < 60 by omega, show ¬ s < 300 by omega]
  · intro s h1 h2
    simp [spreadClass, h2, show ¬ s < 60 by omega, show ¬ s < 300 by omega,
      show ¬ s < 900 by omega]
  · intro s h
    simp [spreadClass, show ¬ s < 60 by omega, show ¬ s < 300 by omega,
      show ¬ s < 900 by omega, show ¬ s < 3600 by omega]
  · intro ws rows k
    simp [multiClientKeys, List.mem_filter]

/-- Witness for C8's amended theorem: the 5-15 min class at spread 500
and the histogram-membership characterization at the `spreadRows`
event. -/
theorem c8_amended_spread_bucket_boundaries_witness :
    spreadClass 30 = "< 1 min" ∧
    spreadClass 100 = "1-5 min" ∧
    spreadClass 500 = "5-15 min" ∧
    spreadClass 2000 = "15-60 min" ∧
    spreadClass 5000 = "> 1 hour" ∧
    (⟨"u1", "jazz", 0⟩ ∈ multiClientKeys 300 spreadRows ↔
      ⟨"u1", "jazz", 0⟩ ∈ eventKeys 300 spreadRows ∧
        2 ≤ (eventClients 300 spreadRows ⟨"u1", "jazz", 0⟩).length) :=
  ⟨c8_amended_spread_bucket_boundaries.1 30 (by decide),
   c8_amended_spread_bucket_boundaries.2.1 100 (by decide) (by decide),
   c8_amended_spread_bucket_boundaries.2.2.1 500 (by decide) (by decide),
   c8_amended_spread_bucket_boundaries.2.2.2.1 2000 (by decide) (by decide),
   c8_amended_spread_bucket_boundaries.2.2.2.2.1 5000 (by decide),
   c8_amended_spread_bucket_boundaries.2.2.2.2.2.1 300 spreadRows ⟨"u1", "jazz", 0⟩⟩

/-- C9: with fewer than two distinct active clients in the requested
range, `analyze_convergence` returns the insufficient-data report (a
plain return after printing "Need at least 2 clients..."), producing no
distribution, convergence-rate, histogram or overlap output. -/
theorem c9_insufficient_clients (rows : List RawRow) (startT endT ws : Int)
    (h : (((rowsInRange rows startT endT).map (·.client_id)).dedup).length < 2) :
    analyze_convergence rows startT endT ws
      = ConvReport.insufficient (((rowsInRange rows startT endT).map (·.client_id)).dedup) := by
  simp [analyze_convergence, h]

/-- Witness for C9 on a range with one active client. -/
theorem c9_insufficient_clients_witness :
    ((((rowsInRange oneClientRows 0 1000).map (·.client_id)).dedup).length < 2) ∧
    analyze_convergence oneClientRows 0 1000 300
      = ConvReport.insufficient
          (((rowsInRange oneClientRows 0 1000).map (·.client_id)).dedup) :=
  ⟨by decide, c9_insufficient_clients oneClientRows 0 1000 300 (by decide)⟩

/-- C10: on any frame in which every `(username, query, 5-minute bucket)`
group has exactly one row (pairwise distinct dedup keys),
`deduplicate_dataframe` keeps exactly the input rows — the output is a
permutation of the input (pandas re-sorts by timestamp), and on a frame
already sorted by timestamp it is literally the input. -/
theorem c10_dedup_identity_on_unique_groups (df : List RawRow)
    (h : df.Pairwise (fun a b => dedupKey a ≠ dedupKey b)) :
    (deduplicate_dataframe df).Perm df ∧
    (List.Sorted (fun a b : RawRow => a.timestamp ≤ b.timestamp) df →
      deduplicate_dataframe df = df) := by
  by_cases hemp : df.isEmpty
  · unfold deduplicate_dataframe
    rw [if_pos hemp]
    exact ⟨List.Perm.refl df, fun _ => rfl⟩
  · unfold deduplicate_dataframe
    rw [if_neg hemp]
    have hperm : (sortByTimestamp df).Perm df := List.perm_insertionSort _ df
    have hpw : (sortByTimestamp df).Pairwise (fun a b => dedupKey a ≠ dedupKey b) :=
      (hperm.pairwise_iff fun hxy => hxy.symm).mpr h
    have hkeep : keepFirstByKey (sortByTimestamp df) [] = sortByTimestamp df :=
      keepFirstByKey_of_distinct _ [] hpw (fun r _ => List.not_mem_nil (dedupKey r))
    refine ⟨?_, fun hs => ?_⟩
    · rw [hkeep]
      exact hperm
    · rw [hkeep]
      exact hs.insertionSort_eq

/-- Witness for C10 on a concrete two-row, two-bucket frame. -/
theorem c10_dedup_identity_witness :
    dedupDfEx.Pairwise (fun a b => dedupKey a ≠ dedupKey b) ∧
    (deduplicate_dataframe dedupDfEx).Perm dedupDfEx ∧
    deduplicate_dataframe dedupDfEx = dedupDfEx :=
  have hpw : dedupDfEx.Pairwise (fun a b => dedupKey a ≠ dedupKey b) := by
    refine List.Pairwise.cons ?_
      (List.Pairwise.cons (fun b hb => absurd hb (List.not_mem_nil b)) List.Pairwise.nil)
    intro b hb
    rw [List.mem_singleton] at hb
    subst hb
    decide
  have hs : List.Sorted (fun a b : RawRow => a.timestamp ≤ b.timestamp) dedupDfEx := by
    refine List.Pairwise.cons ?_
      (List.Pairwise.cons (fun b hb => absurd hb (List.not_mem_nil b)) List.Pairwise.nil)
    intro b hb
    rw [List.mem_singleton] at hb
    subst hb
    decide
  ⟨hpw, (c10_dedup_identity_on_unique_groups dedupDfEx hpw).1,
    (c10_dedup_identity_on_unique_groups dedupDfEx hpw).2 hs⟩
